import Mathlib

/-!
Verification of the MySQL driver adapter layer (webcore-go/lib-mysql).

The adapter bridges the vendor SQL client (Go's database/sql on top of
go-sql-driver/mysql) into the generic driver-capability contract
(driver.Connector / driver.Conn / driver.Stmt / driver.Tx / driver.Rows).

The embedding has two layers:
 * a model of the vendor client (database/sql): explicit state records for
   DB / Stmt / Tx / Rows handles, a `World` of vendor responses, and one
   function per vendor primitive; each primitive also emits an event trace
   so that delegation and the contexts passed down are observable;
 * the adapter itself (Connector, mysqlConn, mysqlStmt, mysqlTx,
   mysqlRows), translated line by line from the Go source.
-/

deriving instance DecidableEq for Except

/-- Go `driver.Value`: the generic value carrier moved between the caller
and the vendor client (int64, float64, bool, string, bytes, time, nil).
Float64 is carried by its bit pattern: this layer never computes on it. -/
inductive Value
  | null
  | int64 (n : Int)
  | float64Bits (bits : Nat)
  | boolean (b : Bool)
  | str (s : String)
  | bytes (bs : List Nat)
  | timeVal (unixNanos : Int)
  deriving DecidableEq, Repr

/-- Go `driver.NamedValue`: the vendor client's named/positional parameter
type (`Name`, 1-based `Ordinal`, `Value`). -/
structure NamedValue where
  name : String
  ordinal : Nat
  value : Value
  deriving DecidableEq, Repr

/-- Go `context.Context`, as observable by this layer: either the implicit
`context.Background()` (never cancelled) or a caller-supplied context that
may have been cancelled. -/
inductive Context
  | background
  | caller (cancelled : Bool)
  deriving DecidableEq, Repr

/-- Whether a context has been cancelled; `context.Background()` never is. -/
def Context.isCanceled : Context → Bool
  | .background => false
  | .caller c => c

/-- Errors produced by the vendor client (database/sql and the wire driver).
`txDone` is database/sql's `ErrTxDone` ("transaction has already been
committed or rolled back"); `scanWithoutNext` is the error
"sql: Scan called without calling Next" that `Rows.Scan` returns when no
successful `Rows.Next` preceded it. -/
inductive VendorErr
  | badDSN (dsn : String)
  | unreachable
  | authFailed
  | ctxCanceled
  | dbClosed
  | stmtClosed
  | prepareFailed (q : String)
  | execFailed
  | queryFailed
  | txDone
  | rowsClosed
  | columnsFailed
  | scanWithoutNext
  | scanCount (want got : Nat)
  deriving DecidableEq, Repr

/-- Go `error` values as seen by the adapter's callers: a vendor error
surfaced as-is, a `fmt.Errorf("msg: %w", cause)` wrapper carrying a short
descriptive message around its cause, or the `io.EOF` end-of-data
sentinel that the generic driver contract expects from `Rows.Next`. -/
inductive GoError
  | vendor (e : VendorErr)
  | wrap (msg : String) (cause : GoError)
  | ioEOF
  deriving DecidableEq, Repr

/-- Tests whether an error is the `io.EOF` end-of-data sentinel. -/
def GoError.isEOF : Except GoError α → Bool
  | .error .ioEOF => true
  | _ => false

/-- Vendor `driver.Result` payload (last insert id, rows affected). -/
structure ExecResult where
  lastInsertId : Int
  rowsAffected : Int
  deriving DecidableEq, Repr

/-- A result set as produced by the vendor for a query: the ordered column
names of the projection, and the data rows in order. -/
structure ResultSet where
  cols : List String
  rows : List (List Value)
  deriving DecidableEq, Repr

/-- Vendor `*sql.DB` handle: the DSN it was opened with and whether it has
been closed. -/
structure SqlDB where
  dsn : String
  closed : Bool
  deriving DecidableEq, Repr

/-- Vendor `*sql.Stmt` handle: the compiled query and whether closed. -/
structure SqlStmt where
  query : String
  closed : Bool
  deriving DecidableEq, Repr

/-- Vendor `*sql.Tx` handle. database/sql tracks a `done` flag internally:
once a transaction has been committed or rolled back, any further
`Commit`/`Rollback` on the same handle returns `ErrTxDone`. The call
counters record how many `Commit`/`Rollback` calls the vendor handle has
received, making delegation observable. -/
structure SqlTx where
  done : Bool
  commitCalls : Nat
  rollbackCalls : Nat
  deriving DecidableEq, Repr

/-- Vendor `*sql.Rows` handle: column names, whether `Columns()` fails
(rows closed or a sticky error), rows not yet visited, the current row
(`lastcols`; `none` until a successful `Rows.Next`), and the closed flag. -/
structure SqlRows where
  cols : List String
  colsErr : Bool
  pending : List (List Value)
  cur : Option (List Value)
  closed : Bool
  deriving DecidableEq, Repr

/-- Events a vendor primitive emits, recording exactly which call the
adapter delegated, with the context and arguments it passed down. In
`evRowsScan`, the `refs` list records the destinations handed to
`Rows.Scan` as indices into the caller-owned slot array: entry `i`
standing for the pointer `&dest[i]`. -/
inductive Ev
  | evOpen (driverName dsn : String)
  | evPing (ctx : Context)
  | evCloseDB
  | evPrepare (ctx : Context) (q : String)
  | evBeginTx (ctx : Context)
  | evStmtExec (ctx : Context) (args : List NamedValue)
  | evStmtQuery (ctx : Context) (args : List NamedValue)
  | evStmtClose
  | evTxCommit
  | evTxRollback
  | evRowsColumns
  | evRowsClose
  | evRowsScan (refs : List Nat)
  deriving DecidableEq, Repr

/-- The vendor environment: how the vendor client responds to each
operation. `wellFormed` decides whether `sql.Open` accepts a DSN (the
go-sql-driver parses the DSN at open time); `pingErr` is the liveness
failure, if any (network unreachable / auth rejected); `prepareErr`,
`execResp` and `queryResp` are the server's responses. -/
structure World where
  wellFormed : String → Bool
  pingErr : Option VendorErr
  prepareErr : String → Option VendorErr
  execResp : List NamedValue → Except VendorErr ExecResult
  queryResp : List NamedValue → Except VendorErr ResultSet

/-- Vendor `sql.Open(driverName, dsn)`: validates the DSN and returns a
fresh open handle; no network I/O happens here. -/
def sqlOpen (w : World) (driverName dsn : String) :
    Except VendorErr SqlDB × List Ev :=
  (if w.wellFormed dsn then .ok { dsn := dsn, closed := false }
   else .error (.badDSN dsn),
   [.evOpen driverName dsn])

/-- Vendor `DB.PingContext(ctx)`: fails on a closed handle, on a cancelled
context, or when the server is unreachable / auth fails. -/
def pingContext (w : World) (db : SqlDB) (ctx : Context) :
    Except VendorErr Unit × List Ev :=
  (if db.closed then .error .dbClosed
   else if ctx.isCanceled then .error .ctxCanceled
   else match w.pingErr with
     | some e => .error e
     | none => .ok (),
   [.evPing ctx])

/-- Vendor `DB.Close()`: marks the handle closed; idempotent. -/
def dbClose (db : SqlDB) : Except VendorErr Unit × SqlDB × List Ev :=
  (.ok (), { db with closed := true }, [.evCloseDB])

/-- Vendor `DB.PrepareContext(ctx, query)`. -/
def dbPrepareContext (w : World) (db : SqlDB) (ctx : Context) (q : String) :
    Except VendorErr SqlStmt × List Ev :=
  (if db.closed then .error .dbClosed
   else if ctx.isCanceled then .error .ctxCanceled
   else match w.prepareErr q with
     | some e => .error e
     | none => .ok { query := q, closed := false },
   [.evPrepare ctx q])

/-- Vendor `DB.BeginTx(ctx, opts)`; the adapter always passes `nil`
options (default isolation, read-write). -/
def dbBeginTx (w : World) (db : SqlDB) (ctx : Context) (_opts : Option Unit) :
    Except VendorErr SqlTx × List Ev :=
  (if db.closed then .error .dbClosed
   else if ctx.isCanceled then .error .ctxCanceled
   else .ok { done := false, commitCalls := 0, rollbackCalls := 0 },
   [.evBeginTx ctx])

/-- Vendor `Stmt.ExecContext(ctx, args...)`. -/
def stmtExecContext (w : World) (s : SqlStmt) (ctx : Context)
    (args : List NamedValue) : Except VendorErr ExecResult × List Ev :=
  (if s.closed then .error .stmtClosed
   else if ctx.isCanceled then .error .ctxCanceled
   else w.execResp args,
   [.evStmtExec ctx args])

/-- Vendor `Stmt.QueryContext(ctx, args...)`: on success yields a fresh
`*sql.Rows` positioned before the first row (`cur = none`). -/
def stmtQueryContext (w : World) (s : SqlStmt) (ctx : Context)
    (args : List NamedValue) : Except VendorErr SqlRows × List Ev :=
  (if s.closed then .error .stmtClosed
   else if ctx.isCanceled then .error .ctxCanceled
   else match w.queryResp args with
     | .error e => .error e
     | .ok rs =>
       .ok { cols := rs.cols, colsErr := false, pending := rs.rows,
             cur := none, closed := false },
   [.evStmtQuery ctx args])

/-- Vendor `Stmt.Close()`. -/
def stmtClose (s : SqlStmt) : Except VendorErr Unit × SqlStmt × List Ev :=
  (.ok (), { s with closed := true }, [.evStmtClose])

/-- Vendor `Tx.Commit()`: database/sql checks its own `done` flag and
returns `ErrTxDone` if the transaction was already terminated; either way
the handle has received the call (counter bumped) and is `done` after. -/
def txCommit (t : SqlTx) : Except VendorErr Unit × SqlTx × List Ev :=
  (if t.done then .error .txDone else .ok (),
   { t with done := true, commitCalls := t.commitCalls + 1 },
   [.evTxCommit])

/-- Vendor `Tx.Rollback()`: same `done`-flag discipline as `Commit`. -/
def txRollback (t : SqlTx) : Except VendorErr Unit × SqlTx × List Ev :=
  (if t.done then .error .txDone else .ok (),
   { t with done := true, rollbackCalls := t.rollbackCalls + 1 },
   [.evTxRollback])

/-- Vendor `Rows.Columns()`: errors when the rows are closed or a sticky
error is pending; in Go the returned slice is then nil. -/
def rowsColumns (r : SqlRows) : Except VendorErr (List String) × List Ev :=
  (if r.closed then .error .rowsClosed
   else if r.colsErr then .error .columnsFailed
   else .ok r.cols,
   [.evRowsColumns])

/-- Vendor `Rows.Close()`. -/
def rowsClose (r : SqlRows) : Except VendorErr Unit × SqlRows × List Ev :=
  (.ok (), { r with closed := true }, [.evRowsClose])

/-- Vendor `Rows.Scan(dests...)`. `refs` records the destinations as
indices into the caller's slot array (entry `i` standing for `&dest[i]`).
Per database/sql: error on closed rows; the error
"sql: Scan called without calling Next" when there is no current row
(no successful `Rows.Next` happened); an arity error when the destination
count differs from the column count; otherwise the write set pairing each
destination reference with the current row's value for that column.
`Scan` itself never returns `io.EOF` and never advances the cursor. -/
def rowsScan (r : SqlRows) (refs : List Nat) :
    Except VendorErr (List (Nat × Value)) × List Ev :=
  (if r.closed then .error .rowsClosed
   else match r.cur with
     | none => .error .scanWithoutNext
     | some row =>
       if refs.length = row.length then .ok (refs.zip row)
       else .error (.scanCount row.length refs.length),
   [.evRowsScan refs])

/-- Embeds a vendor error into the caller-visible `error` type unchanged
(the adapter returns vendor errors untranslated). -/
def vres : Except VendorErr α → Except GoError α
  | .error e => .error (.vendor e)
  | .ok a => .ok a

/-- Modelled from the spec: `libsql.ToNamedValues` lives in
webcore-go/lib-sql, not in this repository; per the spec it is "a pure,
pass-through transform (type-preserving, no coercion)" converting the
incoming positional `[]driver.Value` into the vendor client's
named/positional parameter type, with ordinals assigned positionally
starting at `i` and empty names. -/
def ToNamedValuesFrom (i : Nat) : List Value → List NamedValue
  | [] => []
  | v :: vs => { name := "", ordinal := i, value := v } :: ToNamedValuesFrom (i + 1) vs

/-- Modelled from the spec: `libsql.ToNamedValues(args)`, the one
cross-cutting marshalling helper shared by `Exec` and `Query`; positional
ordinals are 1-based and every value is forwarded unmodified. -/
def ToNamedValues (args : List Value) : List NamedValue :=
  ToNamedValuesFrom 1 args

/-- `Connector` from the source: holds the DSN, nothing else. -/
structure Connector where
  dsn : String
  deriving DecidableEq, Repr

/-- `mysqlConn` from the source: wraps the vendor `*sql.DB`. -/
structure mysqlConn where
  db : SqlDB
  deriving DecidableEq, Repr

/-- `mysqlStmt` from the source: wraps the vendor `*sql.Stmt`. -/
structure mysqlStmt where
  stmt : SqlStmt
  deriving DecidableEq, Repr

/-- `mysqlTx` from the source: wraps the vendor `*sql.Tx`. -/
structure mysqlTx where
  tx : SqlTx
  deriving DecidableEq, Repr

/-- `mysqlRows` from the source: wraps the vendor `*sql.Rows`. -/
structure mysqlRows where
  rows : SqlRows
  deriving DecidableEq, Repr

/-- `Connector.Connect(ctx)` from the source:
`sql.Open("mysql", c.dsn)`, wrapped error "failed to open mysql: %w" on
failure; then `db.PingContext(ctx)`, and on ping failure `db.Close()`
followed by the wrapped error "failed to ping mysql: %w"; on success the
new `mysqlConn`. Besides the result it returns the final states of all
vendor DB handles it created, and the event trace. -/
def Connector.Connect (w : World) (c : Connector) (ctx : Context) :
    Except GoError mysqlConn × List SqlDB × List Ev :=
  let o := sqlOpen w "mysql" c.dsn
  match o.1 with
  | .error e => (.error (.wrap "failed to open mysql" (.vendor e)), [], o.2)
  | .ok db =>
    let p := pingContext w db ctx
    match p.1 with
    | .error e =>
      let cl := dbClose db
      (.error (.wrap "failed to ping mysql" (.vendor e)),
       [cl.2.1], o.2 ++ p.2 ++ cl.2.2)
    | .ok _ => (.ok { db := db }, [db], o.2 ++ p.2)

/-- `mysqlConn.Prepare(query)` from the source:
`c.db.PrepareContext(context.Background(), query)`; vendor error returned
unwrapped, otherwise the statement wrapped in `mysqlStmt`. -/
def mysqlConn.Prepare (w : World) (c : mysqlConn) (q : String) :
    Except GoError mysqlStmt × List Ev :=
  let p := dbPrepareContext w c.db .background q
  ((match p.1 with
    | .error e => .error (.vendor e)
    | .ok st => .ok { stmt := st }),
   p.2)

/-- `mysqlConn.Close()` from the source: `return c.db.Close()`. -/
def mysqlConn.Close (c : mysqlConn) :
    Except GoError Unit × mysqlConn × List Ev :=
  let r := dbClose c.db
  (vres r.1, { db := r.2.1 }, r.2.2)

/-- `mysqlConn.Begin()` from the source:
`c.db.BeginTx(context.Background(), nil)`; vendor error returned
unwrapped, otherwise the transaction wrapped in `mysqlTx`. -/
def mysqlConn.Begin (w : World) (c : mysqlConn) :
    Except GoError mysqlTx × List Ev :=
  let p := dbBeginTx w c.db .background none
  ((match p.1 with
    | .error e => .error (.vendor e)
    | .ok tx => .ok { tx := tx }),
   p.2)

/-- `mysqlStmt.Close()` from the source: `return s.stmt.Close()`. -/
def mysqlStmt.Close (s : mysqlStmt) :
    Except GoError Unit × mysqlStmt × List Ev :=
  let r := stmtClose s.stmt
  (vres r.1, { stmt := r.2.1 }, r.2.2)

/-- `mysqlStmt.NumInput()` from the source: `return -1`. -/
def mysqlStmt.NumInput (_s : mysqlStmt) : Int := -1

/-- `mysqlStmt.Exec(args)` from the source:
`s.stmt.ExecContext(context.Background(), libsql.ToNamedValues(args)...)`;
vendor error returned unwrapped, otherwise the vendor result as-is. -/
def mysqlStmt.Exec (w : World) (s : mysqlStmt) (args : List Value) :
    Except GoError ExecResult × List Ev :=
  let p := stmtExecContext w s.stmt .background (ToNamedValues args)
  ((match p.1 with
    | .error e => .error (.vendor e)
    | .ok r => .ok r),
   p.2)

/-- `mysqlStmt.Query(args)` from the source:
`s.stmt.QueryContext(context.Background(), libsql.ToNamedValues(args)...)`;
vendor error returned unwrapped, otherwise the rows wrapped in
`mysqlRows`. -/
def mysqlStmt.Query (w : World) (s : mysqlStmt) (args : List Value) :
    Except GoError mysqlRows × List Ev :=
  let p := stmtQueryContext w s.stmt .background (ToNamedValues args)
  ((match p.1 with
    | .error e => .error (.vendor e)
    | .ok rs => .ok { rows := rs }),
   p.2)

/-- `mysqlTx.Commit()` from the source: `return t.tx.Commit()` —
unconditional delegation to the vendor handle; the adapter keeps no state
of its own. -/
def mysqlTx.Commit (t : mysqlTx) :
    Except GoError Unit × mysqlTx × List Ev :=
  let r := txCommit t.tx
  (vres r.1, { tx := r.2.1 }, r.2.2)

/-- `mysqlTx.Rollback()` from the source: `return t.tx.Rollback()` —
unconditional delegation to the vendor handle. -/
def mysqlTx.Rollback (t : mysqlTx) :
    Except GoError Unit × mysqlTx × List Ev :=
  let r := txRollback t.tx
  (vres r.1, { tx := r.2.1 }, r.2.2)

/-- `mysqlRows.Columns()` from the source:
`cols, _ := r.rows.Columns(); return cols` — the vendor error is
discarded and the (then nil, i.e. empty) column slice returned. -/
def mysqlRows.Columns (r : mysqlRows) : List String × List Ev :=
  let p := rowsColumns r.rows
  ((match p.1 with
    | .error _ => []
    | .ok cols => cols),
   p.2)

/-- `mysqlRows.Close()` from the source: `return r.rows.Close()`. -/
def mysqlRows.Close (r : mysqlRows) :
    Except GoError Unit × mysqlRows × List Ev :=
  let p := rowsClose r.rows
  (vres p.1, { rows := p.2.1 }, p.2.2)

/-- The argument list `mysqlRows.Next` builds for `Rows.Scan`:
`args := make([]any, len(dest)); for i := range dest { args[i] = &dest[i] }`
— one by-reference binding per slot, in order, represented as the index
list `[0, ..., len(dest)-1]` (entry `i` standing for `&dest[i]`). -/
def nextArgs (dest : List Value) : List Nat :=
  List.range dest.length

/-- Applies the vendor scan's write set to the caller-owned slot array:
each pair `(i, v)` is the vendor writing `v` through the reference to
slot `i`. The array itself is never reallocated. -/
def applyWrites (dest : List Value) (ws : List (Nat × Value)) : List Value :=
  ws.foldl (fun d p => d.set p.1 p.2) dest

/-- `mysqlRows.Next(dest)` from the source: builds the by-reference
argument list over `dest` and returns `r.rows.Scan(args...)`; on a scan
error `dest` is untouched, on success the vendor has written each column
value through its slot reference. Note the source never calls the vendor
`Rows.Next`, so the cursor is never advanced and `Scan`'s protocol error
(not `io.EOF`) is what an exhausted — or any fresh — cursor produces. -/
def mysqlRows.Next (r : mysqlRows) (dest : List Value) :
    Except GoError Unit × List Value × List Ev :=
  let p := rowsScan r.rows (nextArgs dest)
  ((match p.1 with
    | .error e => .error (.vendor e)
    | .ok _ => .ok ()),
   (match p.1 with
    | .error _ => dest
    | .ok ws => applyWrites dest ws),
   p.2)

/-! Helper lemmas about the marshalling helper and the scan write-set. -/

theorem toNamedValuesFrom_values (l : List Value) :
    ∀ i, (ToNamedValuesFrom i l).map (fun nv => nv.value) = l := by
  induction l with
  | nil => intro i; rfl
  | cons v vs ih => intro i; simp [ToNamedValuesFrom, ih]

theorem toNamedValuesFrom_ordinals (l : List Value) :
    ∀ i, (ToNamedValuesFrom i l).map (fun nv => nv.ordinal) =
      List.range' i l.length := by
  induction l with
  | nil => intro i; rfl
  | cons v vs ih => intro i; simp [ToNamedValuesFrom, List.range', ih]

theorem toNamedValuesFrom_length (l : List Value) :
    ∀ i, (ToNamedValuesFrom i l).length = l.length := by
  induction l with
  | nil => intro i; rfl
  | cons v vs ih => intro i; simp [ToNamedValuesFrom, ih]

theorem applyWrites_length (ws : List (Nat × Value)) :
    ∀ dest : List Value, (applyWrites dest ws).length = dest.length := by
  induction ws with
  | nil => intro dest; rfl
  | cons p ws ih =>
      intro dest
      simp only [applyWrites, List.foldl_cons] at ih ⊢
      rw [ih (dest.set p.1 p.2), List.length_set]

theorem applyWrites_shift (ws : List (Nat × Value)) :
    ∀ (x : Value) (xs : List Value),
      applyWrites (x :: xs) (ws.map (Prod.map Nat.succ id)) =
        x :: applyWrites xs ws := by
  induction ws with
  | nil => intro x xs; rfl
  | cons p ws ih =>
      intro x xs
      cases p with
      | mk i v =>
          simp only [applyWrites, List.map_cons, List.foldl_cons, Prod.map,
            id_eq, List.set] at ih ⊢
          exact ih x (xs.set i v)

theorem applyWrites_range_zip (row : List Value) :
    ∀ dest : List Value, row.length = dest.length →
      applyWrites dest ((List.range dest.length).zip row) = row := by
  induction row with
  | nil =>
      intro dest h
      have hd : dest = [] := List.length_eq_zero.mp h.symm
      subst hd; rfl
  | cons v vs ih =>
      intro dest h
      cases dest with
      | nil => simp at h
      | cons d ds =>
          have hlen : vs.length = ds.length := by simpa using h
          have step : applyWrites (d :: ds)
              ((List.range (d :: ds).length).zip (v :: vs)) =
              applyWrites (v :: ds)
                (((List.range ds.length).zip vs).map (Prod.map Nat.succ id)) := by
            simp only [List.length_cons, List.range_succ_eq_map,
              List.zip_cons_cons, List.zip_map_left, applyWrites,
              List.foldl_cons, List.set]
          rw [step, applyWrites_shift, ih ds hlen]

/-! Concrete fixtures used by witnesses. -/

/-- A vendor environment where everything succeeds. -/
def wOk : World :=
  { wellFormed := fun _ => true
    pingErr := none
    prepareErr := fun _ => none
    execResp := fun _ => .ok { lastInsertId := 0, rowsAffected := 0 }
    queryResp := fun _ => .ok { cols := [], rows := [] } }

/-- A vendor environment whose liveness check fails (server unreachable). -/
def wPing : World := { wOk with pingErr := some VendorErr.unreachable }

/-- A vendor environment whose liveness check fails on authentication. -/
def wAuth : World := { wOk with pingErr := some VendorErr.authFailed }

/-- A vendor environment that rejects every DSN at open. -/
def wBad : World := { wOk with wellFormed := fun _ => false }

/-- The spec's concrete connection string. -/
def cEx : Connector := { dsn := "user:pass@tcp(host:3306)/db" }

/-- A fresh transaction handle (vendor `done` flag unset, no calls yet). -/
def tx0 : mysqlTx := { tx := { done := false, commitCalls := 0, rollbackCalls := 0 } }

/-- A cursor over a zero-row result set, fresh from `Query` (no current
row, not closed). -/
def rowsEmptyEx : mysqlRows :=
  { rows := { cols := ["id", "name"], colsErr := false, pending := [],
              cur := none, closed := false } }

/-- A closed cursor. -/
def rowsClosedEx : mysqlRows :=
  { rows := { cols := ["id"], colsErr := false, pending := [],
              cur := none, closed := true } }

/-- An open cursor whose vendor `Columns()` succeeds. -/
def rowsOpenEx : mysqlRows :=
  { rows := { cols := ["id", "name"], colsErr := false, pending := [],
              cur := none, closed := false } }

/-- A cursor whose vendor side has a current row `[5]`. -/
def rowsCurEx : mysqlRows :=
  { rows := { cols := ["id"], colsErr := false, pending := [],
              cur := some [Value.int64 5], closed := false } }

/-! The claims. -/

/-- C8: for every prepared statement, regardless of the query it was
prepared from or how many placeholders that query contains, `NumInput`
returns the same sentinel value `-1` ("variable/unknown", deferring
argument-count validation to the vendor client). -/
theorem C8_numInput_constant_sentinel (s t : mysqlStmt) :
    mysqlStmt.NumInput s = -1 ∧ mysqlStmt.NumInput s = mysqlStmt.NumInput t :=
  ⟨rfl, rfl⟩

/-- C4: every vendor call made by `Prepare`, `Begin`, `Exec` and `Query`
receives the implicit `context.Background()`; these adapter methods take
no caller context (mirroring the generic driver interface), so no caller
cancellation reaches them and the context handed to the vendor is the
background context on every call, for every vendor environment, handle
state and argument list. -/
theorem C4_per_call_paths_use_background_context (w : World) (c : mysqlConn)
    (s : mysqlStmt) (q : String) (args : List Value) :
    (mysqlConn.Prepare w c q).2 = [Ev.evPrepare Context.background q] ∧
    (mysqlConn.Begin w c).2 = [Ev.evBeginTx Context.background] ∧
    (mysqlStmt.Exec w s args).2 =
      [Ev.evStmtExec Context.background (ToNamedValues args)] ∧
    (mysqlStmt.Query w s args).2 =
      [Ev.evStmtQuery Context.background (ToNamedValues args)] :=
  ⟨rfl, rfl, rfl, rfl⟩

/-- C10: the adapter types hold nothing but the vendor handle, and every
method is an unconditional single delegation to that handle: for every
handle state (closed handles and already-done transactions included) the
method emits exactly the one corresponding vendor call, its result is the
vendor's outcome embedded unchanged, and the handle the wrapper holds
afterwards is exactly what the vendor call left behind — no adapter-local
liveness or call-count state exists, so repeated `Close` calls and calls
after `Close` are delegated just the same. -/
theorem C10_unconditional_delegation (w : World) (db : SqlDB) (st : SqlStmt)
    (tx : SqlTx) (rws : SqlRows) (q : String) (args : List Value)
    (dest : List Value) :
    (mysqlConn.Close { db := db }).2.2 = [Ev.evCloseDB] ∧
    (mysqlConn.Close { db := db }).2.1.db = (dbClose db).2.1 ∧
    (mysqlConn.Close { db := db }).1 = vres (dbClose db).1 ∧
    (mysqlConn.Prepare w { db := db } q).2 =
      [Ev.evPrepare Context.background q] ∧
    (mysqlConn.Begin w { db := db }).2 = [Ev.evBeginTx Context.background] ∧
    (mysqlStmt.Close { stmt := st }).2.2 = [Ev.evStmtClose] ∧
    (mysqlStmt.Close { stmt := st }).2.1.stmt = (stmtClose st).2.1 ∧
    (mysqlStmt.Exec w { stmt := st } args).2 =
      [Ev.evStmtExec Context.background (ToNamedValues args)] ∧
    (mysqlStmt.Query w { stmt := st } args).2 =
      [Ev.evStmtQuery Context.background (ToNamedValues args)] ∧
    (mysqlTx.Commit { tx := tx }).2.2 = [Ev.evTxCommit] ∧
    (mysqlTx.Commit { tx := tx }).2.1.tx = (txCommit tx).2.1 ∧
    (mysqlTx.Commit { tx := tx }).1 = vres (txCommit tx).1 ∧
    (mysqlTx.Rollback { tx := tx }).2.2 = [Ev.evTxRollback] ∧
    (mysqlTx.Rollback { tx := tx }).2.1.tx = (txRollback tx).2.1 ∧
    (mysqlRows.Columns { rows := rws }).2 = [Ev.evRowsColumns] ∧
    (mysqlRows.Close { rows := rws }).2.2 = [Ev.evRowsClose] ∧
    (mysqlRows.Close { rows := rws }).2.1.rows = (rowsClose rws).2.1 ∧
    (mysqlRows.Next { rows := rws } dest).2.2 =
      [Ev.evRowsScan (nextArgs dest)] :=
  ⟨rfl, rfl, rfl, rfl, rfl, rfl, rfl, rfl, rfl, rfl, rfl, rfl, rfl, rfl,
   rfl, rfl, rfl, rfl⟩

/-- C1: evidence of a code bug against the claim (which restates the
generic driver contract for `Rows.Next`): the source delegates straight
to `sql.Rows.Scan` without ever calling the vendor `Rows.Next`, so the
cursor is never advanced and no call can return the `io.EOF` end-of-data
sentinel the contract requires. Concretely, on the cursor of a query
returning zero rows the very first `Next` call returns the vendor
protocol error "sql: Scan called without calling Next" instead of
end-of-data; and in general `GoError.isEOF` of the result is `false` for
every cursor state and destination array. -/
theorem C1_first_next_is_scan_error_never_eof :
    (mysqlRows.Next rowsEmptyEx []).1 =
      Except.error (GoError.vendor VendorErr.scanWithoutNext) ∧
    ∀ (r : mysqlRows) (dest : List Value),
      GoError.isEOF (mysqlRows.Next r dest).1 = false := by
  refine ⟨rfl, fun r dest => ?_⟩
  simp only [mysqlRows.Next]
  cases h : (rowsScan r.rows (nextArgs dest)).1 <;> simp [h, GoError.isEOF]

/-- C2 counterexample: the claim's "rather than silently succeeding or
delegating to the vendor handle" is false of the code — `mysqlTx` keeps
no state and delegates every call, second calls included, to the vendor
handle: after Commit has already been called, a second Commit still
reaches the vendor (its received-call counter goes to 2); the
already-terminated error the caller sees is the vendor's own `ErrTxDone`
produced by that delegated call, not an adapter guard. -/
theorem C2_counterexample_second_commit_delegated :
    (mysqlTx.Commit tx0).1 = Except.ok () ∧
    (mysqlTx.Commit (mysqlTx.Commit tx0).2.1).1 =
      Except.error (GoError.vendor VendorErr.txDone) ∧
    (mysqlTx.Commit (mysqlTx.Commit tx0).2.1).2.1.tx.commitCalls = 2 := by
  decide

/-- C2 (amended): for every transaction whose vendor handle is not yet
done, the first `Commit` or `Rollback` succeeds, and any subsequent call
to either method returns the already-terminated error — but this outcome
is produced by unconditional delegation to the vendor handle, whose own
`done` flag yields `ErrTxDone`; each call (second calls included) is
delegated, as the emitted vendor-call traces show. -/
theorem C2_terminal_error_via_vendor_done_flag (t : mysqlTx)
    (h : t.tx.done = false) :
    (mysqlTx.Commit t).1 = Except.ok () ∧
    (mysqlTx.Rollback t).1 = Except.ok () ∧
    (mysqlTx.Commit (mysqlTx.Commit t).2.1).1 =
      Except.error (GoError.vendor VendorErr.txDone) ∧
    (mysqlTx.Rollback (mysqlTx.Commit t).2.1).1 =
      Except.error (GoError.vendor VendorErr.txDone) ∧
    (mysqlTx.Commit (mysqlTx.Rollback t).2.1).1 =
      Except.error (GoError.vendor VendorErr.txDone) ∧
    (mysqlTx.Rollback (mysqlTx.Rollback t).2.1).1 =
      Except.error (GoError.vendor VendorErr.txDone) ∧
    (mysqlTx.Commit t).2.2 = [Ev.evTxCommit] ∧
    (mysqlTx.Commit (mysqlTx.Commit t).2.1).2.2 = [Ev.evTxCommit] := by
  simp [mysqlTx.Commit, mysqlTx.Rollback, txCommit, txRollback, vres, h]

/-- C2 witness: the amended theorem applied to a fresh transaction. -/
theorem C2_terminal_error_witness :
    tx0.tx.done = false ∧ (mysqlTx.Commit tx0).1 = Except.ok () :=
  ⟨rfl, (C2_terminal_error_via_vendor_done_flag tx0 rfl).1⟩

/-- C3: every `Connect` that reports success performed the liveness check
after opening (its vendor-call trace is exactly open-then-ping); on every
failure path all vendor sessions `Connect` created are closed by the time
the error is returned (no leaked half-open session); a cancelled caller
context never yields success; and when the open succeeded but the ping
failed, the trace is open, ping, close — the just-opened session is
released before the error is reported. -/
theorem C3_connect_ping_then_release_on_failure (w : World) (c : Connector)
    (ctx : Context) :
    (∀ conn, (Connector.Connect w c ctx).1 = Except.ok conn →
      (Connector.Connect w c ctx).2.2 =
        [Ev.evOpen "mysql" c.dsn, Ev.evPing ctx]) ∧
    (∀ e, (Connector.Connect w c ctx).1 = Except.error e →
      ∀ db ∈ (Connector.Connect w c ctx).2.1, db.closed = true) ∧
    (ctx.isCanceled = true →
      ∀ conn, (Connector.Connect w c ctx).1 ≠ Except.ok conn) ∧
    (w.wellFormed c.dsn = true →
      ∀ e, (Connector.Connect w c ctx).1 = Except.error e →
        (Connector.Connect w c ctx).2.2 =
          [Ev.evOpen "mysql" c.dsn, Ev.evPing ctx, Ev.evCloseDB]) := by
  cases hw : w.wellFormed c.dsn with
  | false =>
      refine ⟨?_, ?_, ?_, ?_⟩ <;>
        simp [Connector.Connect, sqlOpen, hw]
  | true =>
      cases hcx : ctx.isCanceled with
      | true =>
          refine ⟨?_, ?_, ?_, ?_⟩ <;>
            simp [Connector.Connect, sqlOpen, pingContext, dbClose, hw, hcx]
      | false =>
          cases hp : w.pingErr with
          | none =>
              refine ⟨?_, ?_, ?_, ?_⟩ <;>
                simp [Connector.Connect, sqlOpen, pingContext, dbClose,
                  hw, hcx, hp]
          | some e =>
              refine ⟨?_, ?_, ?_, ?_⟩ <;>
                simp [Connector.Connect, sqlOpen, pingContext, dbClose,
                  hw, hcx, hp]

/-- C3 witness: a successful connect has trace open-then-ping; a connect
whose ping fails closes the session it opened; a cancelled context never
connects. -/
theorem C3_connect_witness :
    (Connector.Connect wOk cEx Context.background).2.2 =
      [Ev.evOpen "mysql" cEx.dsn, Ev.evPing Context.background] ∧
    (∀ db ∈ (Connector.Connect wPing cEx Context.background).2.1,
      db.closed = true) ∧
    (Connector.Connect wPing cEx Context.background).2.2 =
      [Ev.evOpen "mysql" cEx.dsn, Ev.evPing Context.background,
       Ev.evCloseDB] ∧
    (Connector.Connect wOk cEx (Context.caller true)).1 ≠
      Except.ok { db := { dsn := cEx.dsn, closed := false } } := by
  refine ⟨?_, ?_, ?_, ?_⟩
  · exact (C3_connect_ping_then_release_on_failure wOk cEx
      Context.background).1 { db := { dsn := cEx.dsn, closed := false } }
      (by decide)
  · intro db hdb
    exact (C3_connect_ping_then_release_on_failure wPing cEx
      Context.background).2.1
      (GoError.wrap "failed to ping mysql"
        (GoError.vendor VendorErr.unreachable)) (by decide) db hdb
  · exact (C3_connect_ping_then_release_on_failure wPing cEx
      Context.background).2.2.2 (by decide)
      (GoError.wrap "failed to ping mysql"
        (GoError.vendor VendorErr.unreachable)) (by decide)
  · exact (C3_connect_ping_then_release_on_failure wOk cEx
      (Context.caller true)).2.2.1 (by decide)
      { db := { dsn := cEx.dsn, closed := false } }

/-- C5: the value-marshalling step shared by `Exec` and `Query` is a pure
pass-through: extracting the values of `ToNamedValues args` gives back
`args` itself (every argument kept, in its original position, with its
original value — nothing coerced, reordered, dropped or added), the
ordinals are the positions `1..n`, the length is preserved, and both
`Exec` and `Query` hand the vendor exactly `ToNamedValues args`. -/
theorem C5_marshalling_round_trip_identity (w : World) (s : mysqlStmt)
    (args : List Value) :
    (ToNamedValues args).map (fun nv => nv.value) = args ∧
    (ToNamedValues args).map (fun nv => nv.ordinal) =
      List.range' 1 args.length ∧
    (ToNamedValues args).length = args.length ∧
    (mysqlStmt.Exec w s args).2 =
      [Ev.evStmtExec Context.background (ToNamedValues args)] ∧
    (mysqlStmt.Query w s args).2 =
      [Ev.evStmtQuery Context.background (ToNamedValues args)] :=
  ⟨toNamedValuesFrom_values args 1, toNamedValuesFrom_ordinals args 1,
   toNamedValuesFrom_length args 1, rfl, rfl⟩

/-- C6: `Columns` never propagates an error — when the vendor call to
fetch the column names fails (rows closed, or a pending error) the
adapter returns the empty sequence, and otherwise it returns the vendor's
ordered column names unchanged. -/
theorem C6_columns_empty_on_failure (r : mysqlRows) :
    ((r.rows.closed = true ∨ r.rows.colsErr = true) →
      (mysqlRows.Columns r).1 = []) ∧
    (r.rows.closed = false → r.rows.colsErr = false →
      (mysqlRows.Columns r).1 = r.rows.cols) := by
  refine ⟨fun h => ?_, fun h1 h2 => ?_⟩
  · cases hc : r.rows.closed with
    | true => simp [mysqlRows.Columns, rowsColumns, hc]
    | false =>
        cases h with
        | inl h => exact absurd h (by simp [hc])
        | inr h => simp [mysqlRows.Columns, rowsColumns, hc, h]
  · simp [mysqlRows.Columns, rowsColumns, h1, h2]

/-- C6 witness: a closed cursor yields the empty column list, an open one
yields the vendor's names unchanged. -/
theorem C6_columns_witness :
    rowsClosedEx.rows.closed = true ∧
    (mysqlRows.Columns rowsClosedEx).1 = [] ∧
    rowsOpenEx.rows.closed = false ∧ rowsOpenEx.rows.colsErr = false ∧
    (mysqlRows.Columns rowsOpenEx).1 = ["id", "name"] :=
  ⟨rfl, (C6_columns_empty_on_failure rowsClosedEx).1 (Or.inl rfl), rfl, rfl,
   (C6_columns_empty_on_failure rowsOpenEx).2 rfl rfl⟩

/-- C7: `Connect` classifies and wraps its errors without swallowing
them — a DSN the vendor rejects yields the open-classified wrapper
"failed to open mysql" around the vendor cause; an unreachable server,
auth failure or cancelled context yields the ping-classified wrapper
"failed to ping mysql" around the vendor cause; and a connection is
returned exactly when none of these error conditions holds. -/
theorem C7_connect_errors_classified_and_wrapped (w : World) (c : Connector)
    (ctx : Context) :
    (w.wellFormed c.dsn = false →
      (Connector.Connect w c ctx).1 =
        Except.error (GoError.wrap "failed to open mysql"
          (GoError.vendor (VendorErr.badDSN c.dsn)))) ∧
    (∀ e, w.wellFormed c.dsn = true → ctx.isCanceled = false →
      w.pingErr = some e →
      (Connector.Connect w c ctx).1 =
        Except.error (GoError.wrap "failed to ping mysql"
          (GoError.vendor e))) ∧
    (w.wellFormed c.dsn = true → ctx.isCanceled = true →
      (Connector.Connect w c ctx).1 =
        Except.error (GoError.wrap "failed to ping mysql"
          (GoError.vendor VendorErr.ctxCanceled))) ∧
    ((Connector.Connect w c ctx).1 =
        Except.ok { db := { dsn := c.dsn, closed := false } } ↔
      (w.wellFormed c.dsn = true ∧ ctx.isCanceled = false ∧
        w.pingErr = none)) := by
  cases hw : w.wellFormed c.dsn with
  | false =>
      refine ⟨?_, ?_, ?_, ?_⟩ <;>
        simp [Connector.Connect, sqlOpen, hw]
  | true =>
      cases hcx : ctx.isCanceled with
      | true =>
          refine ⟨?_, ?_, ?_, ?_⟩ <;>
            simp [Connector.Connect, sqlOpen, pingContext, dbClose, hw, hcx]
      | false =>
          cases hp : w.pingErr with
          | none =>
              refine ⟨?_, ?_, ?_, ?_⟩ <;>
                simp [Connector.Connect, sqlOpen, pingContext, dbClose,
                  hw, hcx, hp]
          | some e =>
              refine ⟨?_, ?_, ?_, ?_⟩ <;>
                simp [Connector.Connect, sqlOpen, pingContext, dbClose,
                  hw, hcx, hp]

/-- C7 witness: a rejected DSN gives the open-classified wrapped error, an
auth failure gives the ping-classified wrapped error, and in the
all-good environment `Connect` returns the connection. -/
theorem C7_connect_classification_witness :
    wBad.wellFormed "bad" = false ∧
    (Connector.Connect wBad { dsn := "bad" } Context.background).1 =
      Except.error (GoError.wrap "failed to open mysql"
        (GoError.vendor (VendorErr.badDSN "bad"))) ∧
    (Connector.Connect wAuth cEx Context.background).1 =
      Except.error (GoError.wrap "failed to ping mysql"
        (GoError.vendor VendorErr.authFailed)) ∧
    (Connector.Connect wOk cEx Context.background).1 =
      Except.ok { db := { dsn := cEx.dsn, closed := false } } :=
  ⟨rfl,
   (C7_connect_errors_classified_and_wrapped wBad { dsn := "bad" }
      Context.background).1 rfl,
   (C7_connect_errors_classified_and_wrapped wAuth cEx
      Context.background).2.1 VendorErr.authFailed rfl rfl rfl,
   (C7_connect_errors_classified_and_wrapped wOk cEx
      Context.background).2.2.2.mpr ⟨rfl, rfl, rfl⟩⟩

/-- C9: `Next` binds the caller's slots by reference — the argument list
it hands the vendor scan is exactly one reference per slot, to slot `i`
at position `i`; the slot array is never reallocated or replaced (its
length is preserved on every path, and on a scan error it is untouched);
and when the vendor has a current row of matching width, the scan writes
column `i`'s value straight into slot `i`, so the array afterwards is
exactly the row — no intermediate copy sits between the vendor scan and
the caller's array. -/
theorem C9_next_binds_slots_by_reference (r : mysqlRows) (dest : List Value) :
    nextArgs dest = List.range dest.length ∧
    (mysqlRows.Next r dest).2.1.length = dest.length ∧
    (∀ e, (mysqlRows.Next r dest).1 = Except.error e →
      (mysqlRows.Next r dest).2.1 = dest) ∧
    (∀ row, r.rows.closed = false → r.rows.cur = some row →
      row.length = dest.length →
      (mysqlRows.Next r dest).1 = Except.ok () ∧
      (mysqlRows.Next r dest).2.1 = row) := by
  refine ⟨rfl, ?_, ?_, ?_⟩
  · simp only [mysqlRows.Next]
    cases h : (rowsScan r.rows (nextArgs dest)).1 with
    | error e => simp [h]
    | ok ws => simp [h, applyWrites_length]
  · intro e he
    simp only [mysqlRows.Next] at he ⊢
    cases h : (rowsScan r.rows (nextArgs dest)).1 with
    | error e2 => simp [h]
    | ok ws => rw [h] at he; simp at he
  · intro row hcl hcur hlen
    have hscan : (rowsScan r.rows (nextArgs dest)).1 =
        Except.ok ((List.range dest.length).zip row) := by
      simp [rowsScan, hcl, hcur, nextArgs, hlen]
    constructor
    · simp [mysqlRows.Next, hscan]
    · have hset : (mysqlRows.Next r dest).2.1 =
          applyWrites dest ((List.range dest.length).zip row) := by
        simp [mysqlRows.Next, hscan]
      rw [hset]
      exact applyWrites_range_zip row dest hlen

/-- C9 witness: with a current vendor row `[5]` and a one-slot destination,
`Next` succeeds and the caller's slot holds the row's value. -/
theorem C9_next_witness :
    rowsCurEx.rows.closed = false ∧
    rowsCurEx.rows.cur = some [Value.int64 5] ∧
    (mysqlRows.Next rowsCurEx [Value.null]).1 = Except.ok () ∧
    (mysqlRows.Next rowsCurEx [Value.null]).2.1 = [Value.int64 5] :=
  ⟨rfl, rfl,
   ((C9_next_binds_slots_by_reference rowsCurEx [Value.null]).2.2.2
      [Value.int64 5] rfl rfl rfl).1,
   ((C9_next_binds_slots_by_reference rowsCurEx [Value.null]).2.2.2
      [Value.int64 5] rfl rfl rfl).2⟩
